import Mathlib

/-!
Verification development for the OptimiR pipeline (orchestrator in
src/optimir/main.py).  The orchestrator delegates the algorithmic work to
library modules (library_preparation, post_process, essentials) that are not
part of the source tree; those parts are modelled from the specification and
marked as such in their doc comments.  Everything taken from main.py cites
the line it embeds.
-/

namespace OptimiR

/-- Consistency classification of a scored alignment (spec data model:
ScoredAlignment.consistency ∈ consistent, inconsistent, ambiguous,
not-applicable). -/
inductive Classification where
  | consistent
  | inconsistent
  | ambiguous
  | notApplicable
deriving DecidableEq, Repr

/-- A collapsed unique read: sequence plus collapsed occurrence count
(spec data model: UniqueRead). -/
structure UniqueRead where
  sequence : List Char
  count : Nat
deriving DecidableEq, Repr

/-- An alignment of a read against one reference sequence; mismatch positions
are offsets from the 5' end of the aligned read (spec data model:
AlignmentRecord). -/
structure AlignmentRecord where
  refId : String
  mismatchPositions : List Nat
deriving DecidableEq, Repr

/-- Modelled from the spec: the alignment score computed by the
post-alignment annotator (post_process is not under src).  Each mismatch over
the aligned span counts 1, except mismatches inside the 5'-proximal window of
size `window`, which are weighted by the multiplier `weight5`
(default 4, main.py line 44, option --w5). -/
def alignmentScore (weight5 window : Nat) (a : AlignmentRecord) : Nat :=
  (a.mismatchPositions.map (fun p => if p < window then weight5 else 1)).sum

/-- Default 5'-window weight (main.py line 44). -/
def defaultWeight5 : Nat := 4

/-- Default score discard threshold (main.py line 45). -/
def defaultScoreThreshold : Nat := 9

/-- Modelled from the spec: an alignment is discarded when its score exceeds
the threshold (post_process is not under src; threshold default 9, main.py
line 45, option --scoreThresh). -/
def discardAlignment (weight5 window scoreThresh : Nat) (a : AlignmentRecord) : Bool :=
  decide (scoreThresh < alignmentScore weight5 window a)

/-- Modelled from the spec: discarding is per-alignment; the surviving
alignments of a read are those whose score does not exceed the threshold. -/
def survivingAlignments (weight5 window scoreThresh : Nat)
    (l : List AlignmentRecord) : List AlignmentRecord :=
  l.filter (fun a => !discardAlignment weight5 window scoreThresh a)

/-- Modelled from the spec: the AbundanceAggregator's per-bucket total over a
list of classified reads — each read carries its collapsed count into the
bucket of its classification. -/
def bucketTotal (c : Classification) (rs : List (UniqueRead × Classification)) : Nat :=
  ((rs.filter (fun rc => decide (rc.2 = c))).map (fun rc => rc.1.count)).sum

/-- A surviving alignment of one read together with its score (spec data
model: ScoredAlignment). -/
structure ScoredAlignment where
  refId : String
  score : Nat
deriving DecidableEq, Repr

/-- Single-locus attribution outcome for one read. -/
inductive Attribution where
  | unique (refId : String)
  | ambiguous
  | unaligned
deriving DecidableEq, Repr

/-- Modelled from the spec: the distinct reference sequences attaining the
minimal score among a read's surviving alignments (post_process is not under
src). -/
def bestRefIds (l : List ScoredAlignment) : List String :=
  match (l.map ScoredAlignment.score).min? with
  | none => []
  | some m => ((l.filter (fun a => decide (a.score = m))).map ScoredAlignment.refId).dedup

/-- Modelled from the spec: a read whose surviving alignments tie at minimal
score across more than one reference sequence is ambiguous — no forced or
pseudo-random pick; a unique best reference yields single-locus
attribution. -/
def attributeRead (l : List ScoredAlignment) : Attribution :=
  match bestRefIds l with
  | [] => Attribution.unaligned
  | [r] => Attribution.unique r
  | _ :: _ :: _ => Attribution.ambiguous

/-- Modelled from the spec: the single locus a read's count is attributed to,
if any; ambiguous reads are excluded from single-locus attribution. -/
def singleLocusOf (l : List ScoredAlignment) : Option String :=
  match attributeRead l with
  | Attribution.unique r => some r
  | _ => none

/-- Modelled from the spec: per-site inconsistency rate — inconsistent
classified counts divided by all classified counts at the site
(post_process is not under src). -/
def inconsistencyRate (inconsistentCount totalCount : Nat) : ℚ :=
  (inconsistentCount : ℚ) / (totalCount : ℚ)

/-- Default per-site inconsistency flagging threshold 0.01
(main.py line 46, option --consistentRate). -/
def defaultInconsistentThreshold : ℚ := 1 / 100

/-- Modelled from the spec: a genotype-available site is flagged highly
suspicious exactly when its inconsistency rate strictly exceeds the
threshold. -/
def flagHighlySuspicious (thresh : ℚ) (inconsistentCount totalCount : Nat) : Bool :=
  decide (thresh < inconsistencyRate inconsistentCount totalCount)

/-- Modelled from the spec: the ConsistencyResolver only annotates a site
with its flag; it never discards reads — the read list passes through
unchanged. -/
def resolveSite (thresh : ℚ) (inconsistentCount totalCount : Nat)
    (reads : List UniqueRead) : Bool × List UniqueRead :=
  (flagHighlySuspicious thresh inconsistentCount totalCount, reads)

/-- An allele-expanded reference sequence (spec data model:
ReferenceSequence, with nullable variant-allele tag). -/
structure ReferenceSequence where
  id : String
  seq : List Char
  alleleTag : Option Char
deriving DecidableEq, Repr

/-- Modelled from the spec: transcript-relative offset of a genomic position
inside a miRNA coordinate interval, respecting strand
(library_preparation is not under src). -/
def transcriptOffset (plusStrand : Bool) (startPos endPos pos : Nat) : Nat :=
  if plusStrand then pos - startPos else endPos - pos

/-- Modelled from the spec: the VariantIncorporator emits one
ReferenceSequence per allele of a variant site overlapping a miRNA interval,
with the allele substituted at the transcript-relative offset
(library_preparation is not under src). -/
def incorporateVariant (baseId : String) (baseSeq : List Char) (plusStrand : Bool)
    (startPos endPos pos : Nat) (alleles : List Char) : List ReferenceSequence :=
  alleles.map (fun allele =>
    { id := baseId
      seq := baseSeq.set (transcriptOffset plusStrand startPos endPos pos) allele
      alleleTag := some allele })

/-- Modelled from the spec: genotype-consistency classification
(post_process is not under src) — not-applicable when no genotype is
available; otherwise consistent exactly when the allele implied by the read
is present in the sample's genotype. -/
def classifyConsistency (genotype : Option (List Char)) (impliedAllele : Char) :
    Classification :=
  match genotype with
  | none => Classification.notApplicable
  | some g =>
      if impliedAllele ∈ g then Classification.consistent
      else Classification.inconsistent

/-- Modelled from the spec: prepare_library marks the run
no-genotype-available when no genotype file is supplied
(library_preparation is not under src). -/
def genoAvailableFromLibrary (vcf : Option String) : Bool :=
  vcf.isSome

/-- main.py lines 153-155: when genotype data is available but the sample
name is absent from the genotype file's sample list, a warning is emitted and
availability is set to false; the run continues.  Returns
(genotype availability, warning emitted). -/
def resolveGenoAvailable (genoAvailable : Bool) (sampleName : List Char)
    (sampleList : List (List Char)) : Bool × Bool :=
  if genoAvailable && !(decide (sampleName ∈ sampleList)) then (false, true)
  else (genoAvailable, false)

/-- Genotype availability for the run: library flag (main.py line 152)
refined by the sample-list check (main.py lines 153-155). -/
def genoAvailability (vcf : Option String) (sampleName : List Char)
    (sampleList : List (List Char)) : Bool × Bool :=
  resolveGenoAvailable (genoAvailableFromLibrary vcf) sampleName sampleList

/-- The genotype handed to downstream classification: none when genotype
availability is false, degrading classification to not-applicable. -/
def genotypeForClassification (genoAvailable : Bool) (genotype : List Char) :
    Option (List Char) :=
  if genoAvailable then some genotype else none

/-- Modelled from the spec: check_if_file_exists raises InputError naming the
missing path (libs/essentials is not under src); the filesystem is modelled
as a predicate and the failing check returns the offending path. -/
def checkFile (fsExists : String → Bool) (path : String) : Except String Unit :=
  if fsExists path then Except.ok () else Except.error path

/-- main.py lines 109-112: the four unconditional input checks, in program
order — matures fasta, hairpins fasta, coordinate gff3, reads file. -/
def checkInputsCore (fsExists : String → Bool) (matures hairpins gff3 fastq : String) :
    Except String Unit :=
  if fsExists matures then
    if fsExists hairpins then
      if fsExists gff3 then
        if fsExists fastq then Except.ok ()
        else Except.error fastq
      else Except.error gff3
    else Except.error hairpins
  else Except.error matures

/-- main.py lines 101-112: eager input checking — the genotype file is
checked only when supplied, then the four fixed inputs. -/
def checkInputs (fsExists : String → Bool) (vcf : Option String)
    (matures hairpins gff3 fastq : String) : Except String Unit :=
  match vcf with
  | none => checkInputsCore fsExists matures hairpins gff3 fastq
  | some v =>
      if fsExists v then checkInputsCore fsExists matures hairpins gff3 fastq
      else Except.error v

/-- Outcome of the orchestrator's input-check phase. -/
inductive RunOutcome where
  | inputError (offendingPath : String) (exitCode : Nat)
  | pipelineRan
deriving DecidableEq, Repr

/-- main.py lines 114-116: a failed input check reports the offending path
and exits with status 4 before any pipeline stage runs; otherwise the
pipeline proceeds. -/
def runMain (fsExists : String → Bool) (vcf : Option String)
    (matures hairpins gff3 fastq : String) : RunOutcome :=
  match checkInputs fsExists vcf matures hairpins gff3 fastq with
  | Except.error p => RunOutcome.inputError p 4
  | Except.ok _ => RunOutcome.pipelineRan

/-- main.py lines 161-163: the trimming stage is invoked when the sample's
trimmed file does not exist or --trimAgain is set; otherwise the existing
trimmed file is reused unchanged.  Parametric in the external trimming tool;
returns (trimmed content, whether trimming was invoked). -/
def trimStage (trimTool : String → String) (trimAgain : Bool) (fastq : String)
    (existingTrimmed : Option String) : String × Bool :=
  match existingTrimmed with
  | none => (trimTool fastq, true)
  | some t => if trimAgain then (trimTool fastq, true) else (t, false)

/-- main.py line 130: os.path.basename — the characters after the last
'/' of the path. -/
def basename (p : List Char) : List Char :=
  p.foldl (fun acc c => if c = '/' then [] else acc ++ [c]) []

/-- main.py line 131: sample_name.split('.')[0] — the basename truncated at
its first '.' character. -/
def truncAtFirstDot (s : List Char) : List Char :=
  s.takeWhile (fun c => decide (c ≠ '.'))

/-- main.py lines 130-131: the sample identifier used throughout the run. -/
def sampleNameOf (fastqPath : List Char) : List Char :=
  truncAtFirstDot (basename fastqPath)

/-! ## Helper lemmas -/

/-- The per-mismatch sum splits into weighted 5'-window mismatches plus the
remaining mismatches. -/
theorem score_sum_split (w win : Nat) (ms : List Nat) :
    (ms.map (fun p => if p < win then w else 1)).sum
      = w * ms.countP (fun p => decide (p < win))
        + ms.countP (fun p => decide (win ≤ p)) := by
  induction ms with
  | nil => simp
  | cons p ms ih =>
    by_cases h : p < win
    · simp [List.countP_cons, h, Nat.not_le.2 h, ih]
      ring
    · simp [List.countP_cons, h, Nat.le_of_not_lt h, ih]
      ring

/-- The per-mismatch sum is monotone in the 5'-window weight. -/
theorem score_sum_mono (w w' win : Nat) (hw : w ≤ w') (ms : List Nat) :
    (ms.map (fun p => if p < win then w else 1)).sum
      ≤ (ms.map (fun p => if p < win then w' else 1)).sum := by
  induction ms with
  | nil => simp
  | cons p ms ih =>
    by_cases h : p < win
    · simpa [h] using Nat.add_le_add hw ih
    · simpa [h] using Nat.add_le_add_left ih 1

/-- Bucket totals over the four classifications sum to the total count. -/
theorem bucketTotal_conserved (rs : List (UniqueRead × Classification)) :
    bucketTotal Classification.consistent rs + bucketTotal Classification.inconsistent rs
      + bucketTotal Classification.ambiguous rs + bucketTotal Classification.notApplicable rs
      = (rs.map (fun rc => rc.1.count)).sum := by
  induction rs with
  | nil => rfl
  | cons rc rs ih =>
    cases h : rc.2 <;>
      simp [bucketTotal, List.filter_cons, h] at ih ⊢ <;>
      omega

/-- A failing core input check names a path that does not exist. -/
theorem checkInputsCore_error_not_exists (fs : String → Bool) (m h g f p : String)
    (he : checkInputsCore fs m h g f = Except.error p) : fs p = false := by
  by_cases hm : fs m = true <;> by_cases hh : fs h = true <;>
    by_cases hg : fs g = true <;> by_cases hf : fs f = true <;>
    simp_all [checkInputsCore]

/-- When one of the four fixed inputs is missing, the core check fails on a
missing path. -/
theorem checkInputsCore_missing (fs : String → Bool) (m h g f : String)
    (hmiss : fs m = false ∨ fs h = false ∨ fs g = false ∨ fs f = false) :
    ∃ p, checkInputsCore fs m h g f = Except.error p ∧ fs p = false := by
  by_cases hm : fs m = true
  · by_cases hh : fs h = true
    · by_cases hg : fs g = true
      · by_cases hf : fs f = true
        · rcases hmiss with h1 | h1 | h1 | h1 <;> simp_all
        · exact ⟨f, by simp [checkInputsCore, hm, hh, hg, hf], by simpa using hf⟩
      · exact ⟨g, by simp [checkInputsCore, hm, hh, hg], by simpa using hg⟩
    · exact ⟨h, by simp [checkInputsCore, hm, hh], by simpa using hh⟩
  · exact ⟨m, by simp [checkInputsCore, hm], by simpa using hm⟩

/-- When any required input is missing, the full input check fails on a
missing path. -/
theorem checkInputs_missing (fs : String → Bool) (vcf : Option String)
    (m h g f : String)
    (hmiss : (∃ v, vcf = some v ∧ fs v = false) ∨ fs m = false ∨ fs h = false
      ∨ fs g = false ∨ fs f = false) :
    ∃ p, checkInputs fs vcf m h g f = Except.error p ∧ fs p = false := by
  cases vcf with
  | none =>
      have hcore : fs m = false ∨ fs h = false ∨ fs g = false ∨ fs f = false := by
        rcases hmiss with ⟨v, hv, _⟩ | h1 | h1 | h1 | h1
        · exact absurd hv (by simp)
        · exact Or.inl h1
        · exact Or.inr (Or.inl h1)
        · exact Or.inr (Or.inr (Or.inl h1))
        · exact Or.inr (Or.inr (Or.inr h1))
      obtain ⟨p, hp, hfp⟩ := checkInputsCore_missing fs m h g f hcore
      exact ⟨p, by simpa [checkInputs] using hp, hfp⟩
  | some v =>
      by_cases hv : fs v = true
      · have hcore : fs m = false ∨ fs h = false ∨ fs g = false ∨ fs f = false := by
          rcases hmiss with ⟨v2, hv2, hfv2⟩ | h1 | h1 | h1 | h1
          · injection hv2 with hvv
            subst hvv
            exact absurd hfv2 (by simp [hv])
          · exact Or.inl h1
          · exact Or.inr (Or.inl h1)
          · exact Or.inr (Or.inr (Or.inl h1))
          · exact Or.inr (Or.inr (Or.inr h1))
        obtain ⟨p, hp, hfp⟩ := checkInputsCore_missing fs m h g f hcore
        exact ⟨p, by simpa [checkInputs, hv] using hp, hfp⟩
      · exact ⟨v, by simp [checkInputs, hv], by simpa using hv⟩

/-! ## Claim theorems -/

/-- C1: for every UniqueRead, the sum of its counts across the four
classification buckets (consistent + inconsistent + ambiguous +
not-applicable) equals its total collapsed count; over any list of classified
reads, the bucket totals sum to the total collapsed count — nothing lost and
nothing double-counted. -/
theorem uniqueRead_count_conservation (r : UniqueRead) (c : Classification)
    (rs : List (UniqueRead × Classification)) :
    (bucketTotal Classification.consistent [(r, c)]
        + bucketTotal Classification.inconsistent [(r, c)]
        + bucketTotal Classification.ambiguous [(r, c)]
        + bucketTotal Classification.notApplicable [(r, c)] = r.count)
      ∧ (bucketTotal Classification.consistent rs
        + bucketTotal Classification.inconsistent rs
        + bucketTotal Classification.ambiguous rs
        + bucketTotal Classification.notApplicable rs
        = (rs.map (fun rc => rc.1.count)).sum) := by
  refine ⟨?_, bucketTotal_conserved rs⟩
  simpa using bucketTotal_conserved [(r, c)]

/-- C2: the alignment score equals the number of mismatches over the aligned
span with each mismatch inside the 5'-proximal window weighted by the
multiplier; an alignment is discarded exactly when its score exceeds the
threshold; and discarding is per-alignment — an alignment survives if and
only if it is in the read's alignment list and its own score is within the
threshold, independently of any other alignment being discarded. -/
theorem alignmentScore_discard_spec (w win t : Nat) (a : AlignmentRecord)
    (l : List AlignmentRecord) :
    (alignmentScore w win a
        = w * a.mismatchPositions.countP (fun p => decide (p < win))
          + a.mismatchPositions.countP (fun p => decide (win ≤ p)))
      ∧ (discardAlignment w win t a = true ↔ t < alignmentScore w win a)
      ∧ (a ∈ survivingAlignments w win t l ↔ a ∈ l ∧ alignmentScore w win a ≤ t)
      ∧ defaultWeight5 = 4 ∧ defaultScoreThreshold = 9 := by
  refine ⟨score_sum_split w win a.mismatchPositions, by simp [discardAlignment], ?_, rfl, rfl⟩
  simp [survivingAlignments, List.mem_filter, discardAlignment, Nat.not_lt]

/-- C5: the alignment score is monotone in the 5'-window weight — for an
alignment with a mismatch inside the 5'-proximal window, increasing the
weight never decreases the score; for an alignment with no mismatch in that
window, the score does not depend on the weight. -/
theorem score_monotone_in_weight5 (w w' win : Nat) (a : AlignmentRecord)
    (hw : w ≤ w') :
    ((∃ p ∈ a.mismatchPositions, p < win) →
        alignmentScore w win a ≤ alignmentScore w' win a)
      ∧ ((∀ p ∈ a.mismatchPositions, ¬ p < win) →
        alignmentScore w win a = alignmentScore w' win a) := by
  constructor
  · intro _
    exact score_sum_mono w w' win hw a.mismatchPositions
  · intro h
    unfold alignmentScore
    congr 1
    apply List.map_congr_left
    intro p hp
    simp [h p hp]

/-- C3: a read whose surviving alignments attain the minimal score at two
distinct reference sequences is classified ambiguous and excluded from
single-locus attribution; the tie is never broken by a forced or
pseudo-random pick. -/
theorem tie_at_min_is_ambiguous (l : List ScoredAlignment) (a b : ScoredAlignment)
    (ha : a ∈ l) (hb : b ∈ l) (hne : a.refId ≠ b.refId)
    (hmin : ∀ x ∈ l, a.score ≤ x.score) (heq : a.score = b.score) :
    attributeRead l = Attribution.ambiguous ∧ singleLocusOf l = none := by
  have hminset : (l.map ScoredAlignment.score).min? = some a.score := by
    rw [List.min?_eq_some_iff']
    refine ⟨List.mem_map_of_mem _ ha, ?_⟩
    intro s hs
    obtain ⟨x, hx, rfl⟩ := List.mem_map.1 hs
    exact hmin x hx
  have hAmem : a.refId ∈ bestRefIds l := by
    unfold bestRefIds
    rw [hminset]
    simp only [List.mem_dedup, List.mem_map]
    exact ⟨a, List.mem_filter.2 ⟨ha, by simp⟩, rfl⟩
  have hBmem : b.refId ∈ bestRefIds l := by
    unfold bestRefIds
    rw [hminset]
    simp only [List.mem_dedup, List.mem_map]
    exact ⟨b, List.mem_filter.2 ⟨hb, by simp [heq.symm]⟩, rfl⟩
  cases hbr : bestRefIds l with
  | nil =>
      rw [hbr] at hAmem
      exact absurd hAmem (List.not_mem_nil _)
  | cons r rest =>
      cases rest with
      | nil =>
          rw [hbr] at hAmem hBmem
          have h1 : a.refId = r := by simpa using hAmem
          have h2 : b.refId = r := by simpa using hBmem
          exact absurd (h1.trans h2.symm) hne
      | cons r2 rest2 =>
          constructor
          · unfold attributeRead
            rw [hbr]
          · unfold singleLocusOf attributeRead
            rw [hbr]

/-- Witness for C3: two surviving alignments of one read, on references refA
and refB, both at the minimal score 3. -/
theorem tie_at_min_is_ambiguous_witness :
    ((ScoredAlignment.mk "refA" 3) ∈ [ScoredAlignment.mk "refA" 3, ScoredAlignment.mk "refB" 3])
      ∧ ((ScoredAlignment.mk "refB" 3) ∈ [ScoredAlignment.mk "refA" 3, ScoredAlignment.mk "refB" 3])
      ∧ (ScoredAlignment.mk "refA" 3).refId ≠ (ScoredAlignment.mk "refB" 3).refId
      ∧ (∀ x ∈ [ScoredAlignment.mk "refA" 3, ScoredAlignment.mk "refB" 3],
          (ScoredAlignment.mk "refA" 3).score ≤ x.score)
      ∧ (ScoredAlignment.mk "refA" 3).score = (ScoredAlignment.mk "refB" 3).score
      ∧ (attributeRead [ScoredAlignment.mk "refA" 3, ScoredAlignment.mk "refB" 3]
            = Attribution.ambiguous
        ∧ singleLocusOf [ScoredAlignment.mk "refA" 3, ScoredAlignment.mk "refB" 3] = none) :=
  ⟨by decide, by decide, by decide, by decide, by decide,
    tie_at_min_is_ambiguous [ScoredAlignment.mk "refA" 3, ScoredAlignment.mk "refB" 3]
      (ScoredAlignment.mk "refA" 3) (ScoredAlignment.mk "refB" 3)
      (by decide) (by decide) (by decide) (by decide) (by decide)⟩

/-- C4: a genotype-available site is flagged highly suspicious exactly when
its inconsistency rate strictly exceeds the threshold; a rate equal to the
threshold is not flagged; flagging never removes reads; and at the default
threshold 0.01, a rate of exactly 1/100 is not flagged while 2/100 is. -/
theorem suspicious_flag_strict (thresh : ℚ) (inc tot : Nat) (reads : List UniqueRead) :
    (flagHighlySuspicious thresh inc tot = true ↔ thresh < inconsistencyRate inc tot)
      ∧ (inconsistencyRate inc tot = thresh → flagHighlySuspicious thresh inc tot = false)
      ∧ ((resolveSite thresh inc tot reads).2 = reads)
      ∧ flagHighlySuspicious defaultInconsistentThreshold 1 100 = false
      ∧ flagHighlySuspicious defaultInconsistentThreshold 2 100 = true := by
  refine ⟨by simp [flagHighlySuspicious], ?_, rfl, ?_, ?_⟩
  · intro h
    simp [flagHighlySuspicious, h]
  · simp only [flagHighlySuspicious, inconsistencyRate, defaultInconsistentThreshold,
      decide_eq_false_iff_not, not_lt]
    norm_num
  · simp only [flagHighlySuspicious, inconsistencyRate, defaultInconsistentThreshold,
      decide_eq_true_eq]
    norm_num

/-- Witness for C4 at the default threshold, 1 inconsistent read of 100
classified. -/
theorem suspicious_flag_strict_witness :
    (flagHighlySuspicious defaultInconsistentThreshold 1 100 = true
        ↔ defaultInconsistentThreshold < inconsistencyRate 1 100)
      ∧ (inconsistencyRate 1 100 = defaultInconsistentThreshold →
          flagHighlySuspicious defaultInconsistentThreshold 1 100 = false)
      ∧ ((resolveSite defaultInconsistentThreshold 1 100 [UniqueRead.mk [] 100]).2
          = [UniqueRead.mk [] 100])
      ∧ flagHighlySuspicious defaultInconsistentThreshold 1 100 = false
      ∧ flagHighlySuspicious defaultInconsistentThreshold 2 100 = true :=
  suspicious_flag_strict defaultInconsistentThreshold 1 100 [UniqueRead.mk [] 100]

/-- Witness for C5 at weight 4 against weight 5, window 2, mismatches at
positions 0 and 5. -/
theorem score_monotone_in_weight5_witness :
    (4 ≤ 5)
      ∧ ((∃ p ∈ (AlignmentRecord.mk "hsa-miR-1" [0, 5]).mismatchPositions, p < 2) →
          alignmentScore 4 2 (AlignmentRecord.mk "hsa-miR-1" [0, 5])
            ≤ alignmentScore 5 2 (AlignmentRecord.mk "hsa-miR-1" [0, 5]))
      ∧ ((∀ p ∈ (AlignmentRecord.mk "hsa-miR-1" [0, 5]).mismatchPositions, ¬ p < 2) →
          alignmentScore 4 2 (AlignmentRecord.mk "hsa-miR-1" [0, 5])
            = alignmentScore 5 2 (AlignmentRecord.mk "hsa-miR-1" [0, 5])) :=
  ⟨by decide, score_monotone_in_weight5 4 5 2 (AlignmentRecord.mk "hsa-miR-1" [0, 5]) (by decide)⟩

/-- C6: for a variant site with K alleles overlapping a miRNA coordinate
interval, the incorporator emits exactly K reference sequences; any two
emitted sequences agree at every position other than the transcript-relative
offset; and each allele appears as the tag and the substituted base of
exactly its own emitted entry. -/
theorem variant_incorporation_spec (baseId : String) (baseSeq : List Char)
    (plusStrand : Bool) (startPos endPos pos : Nat) (alleles : List Char)
    (hlo : startPos ≤ pos) (hhi : pos ≤ endPos)
    (hoff : transcriptOffset plusStrand startPos endPos pos < baseSeq.length) :
    ((incorporateVariant baseId baseSeq plusStrand startPos endPos pos alleles).length
        = alleles.length)
      ∧ (∀ r1 ∈ incorporateVariant baseId baseSeq plusStrand startPos endPos pos alleles,
          ∀ r2 ∈ incorporateVariant baseId baseSeq plusStrand startPos endPos pos alleles,
          ∀ i, i ≠ transcriptOffset plusStrand startPos endPos pos →
            r1.seq[i]? = r2.seq[i]?)
      ∧ (∀ al ∈ alleles,
          ∃ r ∈ incorporateVariant baseId baseSeq plusStrand startPos endPos pos alleles,
            r.alleleTag = some al
              ∧ r.seq[transcriptOffset plusStrand startPos endPos pos]? = some al) := by
  refine ⟨List.length_map _ _, ?_, ?_⟩
  · intro r1 h1 r2 h2 i hi
    obtain ⟨a1, _, rfl⟩ := List.mem_map.1 h1
    obtain ⟨a2, _, rfl⟩ := List.mem_map.1 h2
    simp only
    rw [List.getElem?_set_ne (Ne.symm hi), List.getElem?_set_ne (Ne.symm hi)]
  · intro al hal
    refine ⟨{ id := baseId
              seq := baseSeq.set (transcriptOffset plusStrand startPos endPos pos) al
              alleleTag := some al }, List.mem_map_of_mem _ hal, rfl, ?_⟩
    exact List.getElem?_set_self hoff

/-- Witness for C6: a bi-allelic site at genomic position 12 inside the plus
strand interval 10..13 over a four-base reference. -/
theorem variant_incorporation_spec_witness :
    (10 ≤ 12 ∧ 12 ≤ 13 ∧ transcriptOffset true 10 13 12 < (String.toList "ACGT").length)
      ∧ (((incorporateVariant "hsa-mir-100" (String.toList "ACGT") true 10 13 12 ['G', 'T']).length
          = (['G', 'T'] : List Char).length)
        ∧ (∀ r1 ∈ incorporateVariant "hsa-mir-100" (String.toList "ACGT") true 10 13 12 ['G', 'T'],
            ∀ r2 ∈ incorporateVariant "hsa-mir-100" (String.toList "ACGT") true 10 13 12 ['G', 'T'],
            ∀ i, i ≠ transcriptOffset true 10 13 12 → r1.seq[i]? = r2.seq[i]?)
        ∧ (∀ al ∈ (['G', 'T'] : List Char),
            ∃ r ∈ incorporateVariant "hsa-mir-100" (String.toList "ACGT") true 10 13 12 ['G', 'T'],
              r.alleleTag = some al ∧ r.seq[transcriptOffset true 10 13 12]? = some al)) :=
  ⟨⟨by decide, by decide, by decide⟩,
    variant_incorporation_spec "hsa-mir-100" (String.toList "ACGT") true 10 13 12 ['G', 'T']
      (by decide) (by decide) (by decide)⟩

/-- C7: when genotype information is unavailable — no genotype file supplied,
or the sample absent from the supplied file — the run proceeds: availability
resolves to false (with the warning emitted only in the absent-sample case)
and downstream classification degrades to not-applicable. -/
theorem genotype_unavailable_degrades (sampleName : List Char)
    (sampleList : List (List Char)) (v : String) (g : List Char) (a : Char)
    (habsent : sampleName ∉ sampleList) :
    (genoAvailability none sampleName sampleList = (false, false))
      ∧ (genoAvailability (some v) sampleName sampleList = (false, true))
      ∧ (∀ allele, classifyConsistency (genotypeForClassification false g) allele
          = Classification.notApplicable)
      ∧ (classifyConsistency none a = Classification.notApplicable) := by
  refine ⟨?_, ?_, fun _ => rfl, rfl⟩
  · simp [genoAvailability, genoAvailableFromLibrary, resolveGenoAvailable]
  · simp [genoAvailability, genoAvailableFromLibrary, resolveGenoAvailable, habsent]

/-- Witness for C7: sample name absent from a one-entry genotype sample
list. -/
theorem genotype_unavailable_degrades_witness :
    (String.toList "sample" ∉ [String.toList "other"])
      ∧ ((genoAvailability none (String.toList "sample") [String.toList "other"]
            = (false, false))
        ∧ (genoAvailability (some "geno.vcf") (String.toList "sample")
            [String.toList "other"] = (false, true))
        ∧ (∀ allele, classifyConsistency (genotypeForClassification false ['A']) allele
            = Classification.notApplicable)
        ∧ (classifyConsistency none 'A' = Classification.notApplicable)) :=
  ⟨by decide,
    genotype_unavailable_degrades (String.toList "sample") [String.toList "other"]
      "geno.vcf" ['A'] 'A' (by decide)⟩

/-- C8: when a required input path does not exist — the supplied genotype
file, matures fasta, hairpins fasta, coordinate file, or reads file — the run
detects it eagerly, reports an offending non-existing path, exits with the
distinct status 4, and no pipeline stage executes. -/
theorem missing_input_aborts (fsExists : String → Bool) (vcf : Option String)
    (matures hairpins gff3 fastq : String)
    (hmiss : (∃ v, vcf = some v ∧ fsExists v = false) ∨ fsExists matures = false
      ∨ fsExists hairpins = false ∨ fsExists gff3 = false ∨ fsExists fastq = false) :
    (∃ p, runMain fsExists vcf matures hairpins gff3 fastq = RunOutcome.inputError p 4
        ∧ fsExists p = false)
      ∧ runMain fsExists vcf matures hairpins gff3 fastq ≠ RunOutcome.pipelineRan := by
  obtain ⟨p, hp, hfp⟩ := checkInputs_missing fsExists vcf matures hairpins gff3 fastq hmiss
  refine ⟨⟨p, ?_, hfp⟩, ?_⟩
  · simp [runMain, hp]
  · simp [runMain, hp]

/-- Witness for C8: an empty filesystem and no genotype file — the reads
file (among others) is missing. -/
theorem missing_input_aborts_witness :
    ((∃ v, (none : Option String) = some v ∧ (fun _ => false : String → Bool) v = false)
        ∨ (fun _ => false : String → Bool) "matures.fa" = false
        ∨ (fun _ => false : String → Bool) "hairpins.fa" = false
        ∨ (fun _ => false : String → Bool) "coords.gff3" = false
        ∨ (fun _ => false : String → Bool) "sample.fq" = false)
      ∧ ((∃ p, runMain (fun _ => false) none "matures.fa" "hairpins.fa" "coords.gff3" "sample.fq"
            = RunOutcome.inputError p 4 ∧ (fun _ => false : String → Bool) p = false)
        ∧ runMain (fun _ => false) none "matures.fa" "hairpins.fa" "coords.gff3" "sample.fq"
            ≠ RunOutcome.pipelineRan) :=
  ⟨Or.inr (Or.inl rfl),
    missing_input_aborts (fun _ => false) none "matures.fa" "hairpins.fa" "coords.gff3"
      "sample.fq" (Or.inr (Or.inl rfl))⟩

/-- C9: the trimming stage is invoked exactly when the sample's trimmed
output does not already exist or the force-re-trim flag is set; otherwise the
previously trimmed file is reused unchanged. -/
theorem trim_invocation_iff (trimTool : String → String) (trimAgain : Bool)
    (fastq : String) (existingTrimmed : Option String) :
    ((trimStage trimTool trimAgain fastq existingTrimmed).2 = true
        ↔ (existingTrimmed = none ∨ trimAgain = true))
      ∧ (∀ t, existingTrimmed = some t → trimAgain = false →
          trimStage trimTool trimAgain fastq existingTrimmed = (t, false))
      ∧ (existingTrimmed = none →
          trimStage trimTool trimAgain fastq existingTrimmed = (trimTool fastq, true))
      ∧ (trimAgain = true →
          trimStage trimTool trimAgain fastq existingTrimmed = (trimTool fastq, true)) := by
  cases existingTrimmed <;> cases trimAgain <;> simp [trimStage]

/-- Witness for C9: an existing trimmed file with the force flag unset is
reused unchanged. -/
theorem trim_invocation_iff_witness :
    ((trimStage id false "sample.fq" (some "trimmed")).2 = true
        ↔ ((some "trimmed" : Option String) = none ∨ false = true))
      ∧ (∀ t, (some "trimmed" : Option String) = some t → false = false →
          trimStage id false "sample.fq" (some "trimmed") = (t, false))
      ∧ ((some "trimmed" : Option String) = none →
          trimStage id false "sample.fq" (some "trimmed") = (id "sample.fq", true))
      ∧ (false = true →
          trimStage id false "sample.fq" (some "trimmed") = (id "sample.fq", true)) :=
  trim_invocation_iff id false "sample.fq" (some "trimmed")

/-- C10: the sample identifier is the reads-file basename truncated at its
first dot, so it contains no dot; a dot-suffixed variant of it is never equal
to it; hence when the genotype file lists the sample only under dot-suffixed
variants, the sample never matches and the run degrades to
genotype-unavailable with the warning emitted. -/
theorem sampleName_truncation_mismatch (p : List Char) (suffix : List Char)
    (sampleList : List (List Char))
    (hvariants : ∀ n ∈ sampleList, ∃ s, n = sampleNameOf p ++ '.' :: s) :
    ( '.' ∉ sampleNameOf p)
      ∧ (sampleNameOf p ++ '.' :: suffix ≠ sampleNameOf p)
      ∧ resolveGenoAvailable true (sampleNameOf p) sampleList = (false, true) := by
  refine ⟨?_, ?_, ?_⟩
  · intro hmem
    unfold sampleNameOf truncAtFirstDot at hmem
    have := List.mem_takeWhile_imp hmem
    simp at this
  · intro he
    have hl := congrArg List.length he
    simp [List.length_append] at hl
  · have hnotmem : sampleNameOf p ∉ sampleList := by
      intro hmem
      obtain ⟨s, hs⟩ := hvariants _ hmem
      have hl := congrArg List.length hs
      simp [List.length_append] at hl
    simp [resolveGenoAvailable, hnotmem]

/-- Witness for C10: reads file /data/sample.fq.gz, whose sample identifier
is sample, against a genotype file listing only sample.fq. -/
theorem sampleName_truncation_mismatch_witness :
    (∀ n ∈ [String.toList "sample.fq"],
        ∃ s, n = sampleNameOf (String.toList "/data/sample.fq.gz") ++ '.' :: s)
      ∧ (( '.' ∉ sampleNameOf (String.toList "/data/sample.fq.gz"))
        ∧ (sampleNameOf (String.toList "/data/sample.fq.gz") ++ '.' :: String.toList "gz"
            ≠ sampleNameOf (String.toList "/data/sample.fq.gz"))
        ∧ resolveGenoAvailable true (sampleNameOf (String.toList "/data/sample.fq.gz"))
            [String.toList "sample.fq"] = (false, true)) := by
  have hv : ∀ n ∈ [String.toList "sample.fq"],
      ∃ s, n = sampleNameOf (String.toList "/data/sample.fq.gz") ++ '.' :: s := by
    intro n hn
    simp only [List.mem_singleton] at hn
    subst hn
    exact ⟨String.toList "fq", by decide⟩
  exact ⟨hv, sampleName_truncation_mismatch (String.toList "/data/sample.fq.gz")
    (String.toList "gz") [String.toList "sample.fq"] hv⟩

end OptimiR
